import Mathlib

/-!
Verification of the HydroSleep tracker's analytics and logging engine.

Shallow embedding conventions:
* A calendar day (always normalized to local midnight in the source via
  `setHours(0,0,0,0)` / `toDateString` comparisons) is modelled as an
  integer day index `Int`.  Day index 0 is anchored to a Sunday, so the
  JavaScript `date.getDay()` weekday of day `d` is `(d % 7).toNat`.
  The implicit wall-clock "now" becomes an explicit `today : Int`
  parameter; an instant within day `d` compares with a midnight of day
  `k` exactly as `k ≤ d` vs `k > d`, which is how all `date > today`
  and `date <= today` tests in the source resolve at day granularity.
* Mongo collections are modelled as `List` in insertion order;
  `Model.findOne(query)` is `List.find?`, `Model.find(range query)` is
  `List.filter`, saving a fetched document mutates the first match in
  place (`updateFirst`) and inserting appends.
* JavaScript numbers that the validators constrain to non-negative
  integers (`amountMl`, `durationMinutes`, percentages, goal values)
  are stored as `Nat`; raw request input that can be negative is `Int`.
  `Math.round(x)` on the non-negative rationals that occur here rounds
  half up, so `Math.round(a / b)` is modelled exactly by
  `roundDiv a b = (2*a + b) / (2*b)` on scaled integers.  Display
  values rounded to one decimal are therefore carried in tenths
  (`litersTenths`, `hoursTenths`) and two-decimal averages in
  hundredths.
-/

/-- Round-half-up of the rational `a / b` on naturals:
`roundDiv a b = ⌊a/b + 1/2⌋`.  Models JavaScript `Math.round(a / b)`
for non-negative integer `a` and positive integer `b`. -/
def roundDiv (a b : Nat) : Nat := (2 * a + b) / (2 * b)

/-- `Math.round((amountMl / 1000) * 10) / 10` kept in tenths of a liter
(`src/server/src/routes/analytics.js` line 83). -/
def litersTenths (amountMl : Nat) : Nat := roundDiv (10 * amountMl) 1000

/-- `Math.round((durationMinutes / 60) * 10) / 10` kept in tenths of an
hour (`src/server/src/routes/analytics.js` line 70). -/
def hoursTenths (durationMinutes : Nat) : Nat := roundDiv (10 * durationMinutes) 60

/-- The fixed day-name lookup table `['Sun','Mon','Tue','Wed','Thu','Fri','Sat']`. -/
def dayNames : List String := [("Sun"), ("Mon"), ("Tue"), ("Wed"), ("Thu"), ("Fri"), ("Sat")]

/-- JavaScript `date.getDay()` under the day-index model (day 0 is a Sunday). -/
def weekdayIdx (d : Int) : Nat := (d % 7).toNat

/-- `getDayName` from the analytics route. -/
def dayName (d : Int) : String := dayNames.getD (weekdayIdx d) ("")

/-- Goal types: the fixed enumeration from the Goal schema. -/
inductive GoalType where
  | exercise
  | water
  | sleep
  | custom
deriving DecidableEq, Repr

/-- A goal document (`src/server/src/models/Goal` shape as used by the routes). -/
structure Goal where
  id : Nat
  userId : Nat
  type : GoalType
  label : String
  value : Nat
  unit : String
  isDefault : Bool
deriving DecidableEq, Repr

/-- A WaterLog document: one per (user, calendar day), accumulated
milliliters (`src/server/src/models/WaterLog.js`). -/
structure WaterLog where
  userId : Nat
  day : Int
  amountMl : Nat
deriving DecidableEq, Repr

/-- The `min: 0` bound on `amountMl` in `waterLogSchema`
(`src/server/src/models/WaterLog.js` lines 13-17). -/
def waterLogSchemaMinAmount : Int := 0

/-- A SleepEntry document (`src/server/src/models/SleepEntry.js`). -/
structure SleepEntry where
  userId : Nat
  day : Int
  durationMinutes : Nat
  restedPercent : Nat
  remPercent : Nat
  deepSleepPercent : Nat
  notes : String
deriving DecidableEq, Repr

/-- Replace the first element satisfying `p` by its image under `f`;
models mutating a document fetched by `findOne` and calling `save()`. -/
def updateFirst (p : α → Bool) (f : α → α) : List α → List α
  | [] => []
  | x :: xs => if p x then f x :: xs else x :: updateFirst p f xs

/-- Predicate matching the `findOne({ userId, date })` query of the
water upsert handler. -/
def waterKeyMatch (u : Nat) (d : Int) (r : WaterLog) : Bool :=
  decide (r.userId = u ∧ r.day = d)

/-- The post-validation body of `POST /api/water` in
`src/server/src/routes/user.js` lines 279-294: find the same-day record
and increment it, else insert a fresh record. -/
def waterUpsert (store : List WaterLog) (u : Nat) (d : Int) (amountMl : Nat) : List WaterLog :=
  match store.find? (waterKeyMatch u d) with
  | some _ =>
      updateFirst (waterKeyMatch u d)
        (fun r => { r with amountMl := r.amountMl + amountMl }) store
  | none => store ++ [{ userId := u, day := d, amountMl := amountMl }]

/-- The `POST /api/water` handler (`src/server/src/routes/user.js` lines
261-294): `body('amountMl').isInt({ min: 1 })` rejects any amount below 1
with a field-level message, otherwise the upsert runs. -/
def createWaterLog (store : List WaterLog) (u : Nat) (d : Int) (amountMl : Int) :
    Except String (List WaterLog) :=
  if amountMl < 1 then .error ("Amount must be a positive number")
  else .ok (waterUpsert store u d amountMl.toNat)

/-- Store state after a `POST /api/water` request: unchanged when the
request is rejected. -/
def runCreateWaterLog (store : List WaterLog) (u : Nat) (d : Int) (amountMl : Int) :
    List WaterLog :=
  match createWaterLog store u d amountMl with
  | .ok s => s
  | .error _ => store

/-- `WaterLog.find({ userId, date: { $gte: startDay, $lt: endDay } })`. -/
def findWaterInRange (store : List WaterLog) (u : Nat) (startDay endDay : Int) :
    List WaterLog :=
  store.filter (fun r => decide (r.userId = u ∧ startDay ≤ r.day ∧ r.day < endDay))

/-- Request payload of `POST /api/sleep`; `notes` is optional. -/
structure SleepPayload where
  durationMinutes : Nat
  restedPercent : Nat
  remPercent : Nat
  deepSleepPercent : Nat
  notes : Option String
deriving DecidableEq, Repr

/-- Predicate matching the `findOne({ userId, date })` query of the
sleep upsert handler. -/
def sleepKeyMatch (u : Nat) (d : Int) (e : SleepEntry) : Bool :=
  decide (e.userId = u ∧ e.day = d)

/-- The stored document produced from a payload: every field replaced,
`notes: notes || ''` (`src/server/src/routes/sleep.js` lines 140-158). -/
def mkSleepEntry (u : Nat) (d : Int) (p : SleepPayload) : SleepEntry :=
  { userId := u
    day := d
    durationMinutes := p.durationMinutes
    restedPercent := p.restedPercent
    remPercent := p.remPercent
    deepSleepPercent := p.deepSleepPercent
    notes := p.notes.getD ("") }

/-- The post-validation body of `POST /api/sleep`: replace every field of
the same-day entry, or insert a fresh one.  Sleep has no increment
semantics. -/
def sleepUpsert (store : List SleepEntry) (u : Nat) (d : Int) (p : SleepPayload) :
    List SleepEntry :=
  match store.find? (sleepKeyMatch u d) with
  | some _ => updateFirst (sleepKeyMatch u d) (fun _ => mkSleepEntry u d p) store
  | none => store ++ [mkSleepEntry u d p]

/-- The `POST /api/sleep` handler (`src/server/src/routes/sleep.js` lines
114-158).  `durationMinutes` carries `isInt({ min: 0 })`, automatic for
`Nat`; the three percentages carry `isInt({ min: 0, max: 100 })`. -/
def createSleepEntry (store : List SleepEntry) (u : Nat) (d : Int) (p : SleepPayload) :
    Except String (List SleepEntry) :=
  if ¬ p.restedPercent ≤ 100 then .error ("Rested percent must be 0-100")
  else if ¬ p.remPercent ≤ 100 then .error ("REM percent must be 0-100")
  else if ¬ p.deepSleepPercent ≤ 100 then .error ("Deep sleep percent must be 0-100")
  else .ok (sleepUpsert store u d p)

/-- Store state after a `POST /api/sleep` request. -/
def runCreateSleepEntry (store : List SleepEntry) (u : Nat) (d : Int) (p : SleepPayload) :
    List SleepEntry :=
  match createSleepEntry store u d p with
  | .ok s => s
  | .error _ => store

/-- A valid sleep payload (all three express-validator range checks pass). -/
def validSleepPayload (p : SleepPayload) : Prop :=
  p.restedPercent ≤ 100 ∧ p.remPercent ≤ 100 ∧ p.deepSleepPercent ≤ 100

instance : DecidablePred validSleepPayload := fun p => by
  unfold validSleepPayload; infer_instance

/-- Errors of the goal routes: 404 not-found vs 400 business-rule. -/
inductive GoalError where
  | notFound (msg : String)
  | businessRule (msg : String)
deriving DecidableEq, Repr

/-- `router.delete('/:id')` of the goals router
(`src/server/src/routes/screenTime.js` lines 346-366): ownership-checked
lookup, explicit refusal on default goals, otherwise delete by id. -/
def deleteGoal (goals : List Goal) (id u : Nat) : Except GoalError (List Goal) :=
  match goals.find? (fun g => decide (g.id = id ∧ g.userId = u)) with
  | none => .error (.notFound ("Goal not found"))
  | some g =>
      if g.isDefault then .error (.businessRule ("Cannot delete default goals"))
      else .ok (goals.filter (fun g2 => decide (¬ g2.id = id)))

/-- Store state after a `DELETE /api/goals/:id` request. -/
def runDeleteGoal (goals : List Goal) (id u : Nat) : List Goal :=
  match deleteGoal goals id u with
  | .ok s => s
  | .error _ => goals

/-- One element of the sleep `GET /week` response
(`src/server/src/routes/sleep.js` lines 92-101). -/
structure SleepWeekCell where
  day : Int
  durationMinutes : Nat
  entry : Option SleepEntry
deriving DecidableEq, Repr

/-- One element of the water `GET /week` response
(`src/server/src/routes/user.js` lines 208-213). -/
structure WaterWeekCell where
  day : Int
  amountMl : Nat
  goalMet : Bool
deriving DecidableEq, Repr

/-- Water `GET /week` response shape (`src/server/src/routes/user.js`). -/
structure WaterWeekResp where
  dailyGoalMl : Nat
  weeklyGoalMet : Bool
  goalMetCount : Nat
  entries : List WaterWeekCell
deriving DecidableEq, Repr

/-- The user's water goal in liters with the `3` fallback used whenever
no water goal exists (`waterGoal ? waterGoal.value : 3`). -/
def waterGoalLiters (goals : List Goal) : Nat :=
  match goals.find? (fun g => decide (g.type = GoalType.water)) with
  | some g => g.value
  | none => 3

/-- The user's sleep goal in hours with the `8` fallback. -/
def sleepGoalHoursOf (goals : List Goal) : Nat :=
  match goals.find? (fun g => decide (g.type = GoalType.sleep)) with
  | some g => g.value
  | none => 8

/-- One iteration of the sleep `GET /week` loop: probe the range-queried
entries for the exact calendar day, zero-fill when absent. -/
def sleepCellFor (entries : List SleepEntry) (day : Int) : SleepWeekCell :=
  match entries.find? (fun e => decide (e.day = day)) with
  | some e => { day := day, durationMinutes := e.durationMinutes, entry := some e }
  | none => { day := day, durationMinutes := 0, entry := none }

/-- The `GET /api/sleep/week` builder (`src/server/src/routes/sleep.js`
lines 60-107): the range query followed by the 7-iteration loop that
zero-fills days without an entry. -/
def sleepWeekEntries (store : List SleepEntry) (u : Nat) (startDay : Int) :
    List SleepWeekCell :=
  let entries := store.filter
    (fun e => decide (e.userId = u ∧ startDay ≤ e.day ∧ e.day < startDay + 7))
  (List.range 7).map (fun (i : Nat) => sleepCellFor entries (startDay + (i : Int)))

/-- One iteration of the water `GET /week` loop
(`src/server/src/routes/user.js` lines 195-213): zero-filled amount and
the per-day `goalMet = amountMl >= dailyGoalMl && date <= today` flag. -/
def waterCellFor (logs : List WaterLog) (dailyGoalMl : Nat) (today day : Int) :
    WaterWeekCell :=
  let amountMl := match logs.find? (fun r => decide (r.day = day)) with
    | some r => r.amountMl
    | none => 0
  { day := day
    amountMl := amountMl
    goalMet := decide (dailyGoalMl ≤ amountMl) && decide (day ≤ today) }

/-- The `GET /api/water/week` handler (`src/server/src/routes/user.js`
lines 166-226): 7-day zero-filled series with per-day `goalMet` flags,
`goalMetCount`, `pastDays` and the whole-week `weeklyGoalMet` boolean. -/
def waterWeekResp (store : List WaterLog) (goals : List Goal) (u : Nat)
    (startDay today : Int) : WaterWeekResp :=
  let logs := store.filter
    (fun r => decide (r.userId = u ∧ startDay ≤ r.day ∧ r.day < startDay + 7))
  let dailyGoalMl := waterGoalLiters goals * 1000
  let entries := (List.range 7).map
    (fun (i : Nat) => waterCellFor logs dailyGoalMl today (startDay + (i : Int)))
  let goalMetCount := entries.countP (fun c => c.goalMet)
  let pastDays := (entries.filter (fun c => decide (c.day ≤ today))).length
  { dailyGoalMl := dailyGoalMl
    weeklyGoalMet := decide (goalMetCount = pastDays) && decide (0 < pastDays)
    goalMetCount := goalMetCount
    entries := entries }

/-- Water block of the dashboard `GET /summary` response
(`src/unnamed/part_009`): week anchored at the most recent Sunday,
`pastDays = min(7, ceil((today − startOfWeek)/day) + 1)`, and the
whole-week boolean.  In the day-index model the millisecond quotient
`ceil((today − startOfWeek)/86400000)` is exactly the weekday index. -/
structure DashboardWater where
  weeklyGoalMet : Bool
  weeklyGoalMetCount : Nat
deriving DecidableEq, Repr

/-- The dashboard weekly-water computation of `src/unnamed/part_009`
lines 33-65. -/
def dashboardWater (store : List WaterLog) (goals : List Goal) (u : Nat)
    (today : Int) : DashboardWater :=
  let w := weekdayIdx today
  let startOfWeek := today - (w : Int)
  let weekLogs := store.filter
    (fun r => decide (r.userId = u ∧ startOfWeek ≤ r.day ∧ r.day < startOfWeek + 7))
  let dailyGoalMl := waterGoalLiters goals * 1000
  let metCount := (List.range 7).countP (fun (i : Nat) =>
    decide (startOfWeek + (i : Int) ≤ today) &&
      ((weekLogs.find? (fun r => decide (r.day = startOfWeek + (i : Int)))).any
        (fun r => decide (dailyGoalMl ≤ r.amountMl))))
  let pastDays := min 7 (w + 1)
  { weeklyGoalMet := decide (metCount = pastDays) && decide (0 < pastDays)
    weeklyGoalMetCount := metCount }

/-- Start of the analytics range: `startDate = today − (days − 1)`
(`src/server/src/routes/analytics.js` lines 22-24). -/
def summaryStartDay (days : Nat) (today : Int) : Int := today - ((days : Int) - 1)

/-- The calendar day of loop index `i` of the analytics summary loop. -/
def summaryDay (days : Nat) (today : Int) (i : Nat) : Int :=
  summaryStartDay days today + (i : Int)

/-- Indices of the requested range that survive the
`if (date > today) continue` guard of the summary loop. -/
def elapsedIdx (days : Nat) (today : Int) : List Nat :=
  (List.range days).filter (fun i => decide (summaryDay days today i ≤ today))

/-- Number of days of the requested analytics range that are not in the
future — the claim's `elapsedDayCount`. -/
def eligibleRangeCount (days : Nat) (today : Int) : Nat := (elapsedIdx days today).length

/-- Sleep display value (tenths of an hour) of day `i` of the summary
loop: the range-queried entries are probed for the exact day, missing
days yield 0 (`src/server/src/routes/analytics.js` lines 65-70). -/
def summarySleepTenthsAt (ss : List SleepEntry) (u : Nat) (days : Nat) (today : Int)
    (i : Nat) : Nat :=
  let entries := ss.filter
    (fun e => decide (e.userId = u ∧ summaryStartDay days today ≤ e.day ∧ e.day ≤ today))
  match entries.find? (fun e => decide (e.day = summaryDay days today i)) with
  | some e => hoursTenths e.durationMinutes
  | none => 0

/-- Water display value (tenths of a liter) of day `i` of the summary
loop (`src/server/src/routes/analytics.js` lines 78-83). -/
def summaryWaterTenthsAt (ws : List WaterLog) (u : Nat) (days : Nat) (today : Int)
    (i : Nat) : Nat :=
  let logs := ws.filter
    (fun r => decide (r.userId = u ∧ summaryStartDay days today ≤ r.day ∧ r.day ≤ today))
  match logs.find? (fun r => decide (r.day = summaryDay days today i)) with
  | some r => litersTenths r.amountMl
  | none => 0

/-- Per-day water goal-met test of the summary loop: the liter value
rounded to one decimal compared against the goal in liters
(`if (liters >= dailyGoalLiters)`, lines 83-85). -/
def waterDayMet (amountMl goalLiters : Nat) : Bool :=
  decide (10 * goalLiters ≤ litersTenths amountMl)

/-- The `GET /api/analytics/summary` response
(`src/server/src/routes/analytics.js` lines 118-137), with display
values scaled to integers (tenths / hundredths). -/
structure AnalyticsOut where
  sleepDays : List String
  sleepHoursTenths : List Nat
  sleepAverageHundredths : Nat
  sleepGoalHours : Nat
  sleepGoalMetCount : Nat
  waterDays : List String
  waterLitersTenths : List Nat
  dailyGoalLiters : Nat
  waterGoalMetCount : Nat
  totalGoals : Nat
  completedToday : Nat
  weeklyCompletionRatePercent : Nat
deriving DecidableEq, Repr

/-- The `GET /api/analytics/summary` handler
(`src/server/src/routes/analytics.js` lines 14-137). -/
def analyticsSummary (ss : List SleepEntry) (ws : List WaterLog) (goals : List Goal)
    (u : Nat) (days : Nat) (today : Int) : AnalyticsOut :=
  let dailyGoalLiters := waterGoalLiters goals
  let dailyGoalMl := dailyGoalLiters * 1000
  let sleepGoalHours := sleepGoalHoursOf goals
  let elapsed := elapsedIdx days today
  let sleepAt := summarySleepTenthsAt ss u days today
  let waterAt := summaryWaterTenthsAt ws u days today
  let sleepDaysList := elapsed.map (fun i => dayName (summaryDay days today i))
  let nz := elapsed.filter (fun i => decide (0 < sleepAt i))
  let totalSleepTenths := (nz.map sleepAt).sum
  let sleepDaysCount := nz.length
  let sleepGoalMetCount :=
    (nz.filter (fun i => decide (10 * sleepGoalHours ≤ sleepAt i))).length
  let waterGoalMetCount :=
    (elapsed.filter (fun i => decide (10 * dailyGoalLiters ≤ waterAt i))).length
  let sleepAverageHundredths :=
    if 0 < sleepDaysCount then roundDiv (10 * totalSleepTenths) sleepDaysCount else 0
  let todayWater := ws.find? (fun r => decide (r.userId = u ∧ r.day = today))
  let todaySleep := ss.find? (fun e => decide (e.userId = u ∧ e.day = today))
  let completedToday :=
    (if todayWater.any (fun r => decide (dailyGoalMl ≤ r.amountMl)) then 1 else 0) +
    (if todaySleep.any (fun e => decide (sleepGoalHours * 60 ≤ e.durationMinutes))
      then 1 else 0)
  let totalDaysTracked := sleepDaysList.length
  let totalGoalCompletions := waterGoalMetCount + sleepGoalMetCount
  let totalPossibleCompletions := totalDaysTracked * 2
  let weeklyCompletionRatePercent :=
    if 0 < totalPossibleCompletions
      then roundDiv (100 * totalGoalCompletions) totalPossibleCompletions else 0
  { sleepDays := sleepDaysList
    sleepHoursTenths := elapsed.map sleepAt
    sleepAverageHundredths := sleepAverageHundredths
    sleepGoalHours := sleepGoalHours
    sleepGoalMetCount := sleepGoalMetCount
    waterDays := elapsed.map (fun i => dayName (summaryDay days today i))
    waterLitersTenths := elapsed.map waterAt
    dailyGoalLiters := dailyGoalLiters
    waterGoalMetCount := waterGoalMetCount
    totalGoals := goals.length
    completedToday := completedToday
    weeklyCompletionRatePercent := weeklyCompletionRatePercent }

/-- A client-side water log (`AppContext.tsx`): id dropped, day index. -/
structure CWaterLog where
  day : Int
  amountMl : Nat
deriving DecidableEq, Repr

/-- A client-side sleep entry (`AppContext.tsx`). -/
structure CSleepEntry where
  day : Int
  durationMinutes : Nat
  restedPercent : Nat
  remPercent : Nat
  deepSleepPercent : Nat
deriving DecidableEq, Repr

/-- Client `getStartOfWeek`: step back from now to the most recent
Sunday (`AppContext.tsx` lines 86-91). -/
def clientWeekStart (today : Int) : Int := today - (weekdayIdx today : Int)

/-- Client `getWeeklyWater` (`AppContext.tsx` lines 297-314): the 7
calendar days of the current week paired with the logged amount, 0 when
no same-day log exists. -/
def clientWeeklyWater (logs : List CWaterLog) (today : Int) : List (Int × Nat) :=
  (List.range 7).map (fun (i : Nat) =>
    let day := clientWeekStart today + (i : Int)
    (day, match logs.find? (fun l => decide (l.day = day)) with
          | some l => l.amountMl
          | none => 0))

/-- Client `getWeeklySleep` (`AppContext.tsx` lines 316-332). -/
def clientWeeklySleep (entries : List CSleepEntry) (today : Int) : List (Int × Nat) :=
  (List.range 7).map (fun (i : Nat) =>
    let day := clientWeekStart today + (i : Int)
    (day, match entries.find? (fun e => decide (e.day = day)) with
          | some e => e.durationMinutes
          | none => 0))

/-- Client `getLatestSleep` (`AppContext.tsx` lines 289-295): a `reduce`
that keeps the entry with the strictly greatest date, preferring the
earlier list element on ties. -/
def clientGetLatestSleep : List CSleepEntry → Option CSleepEntry
  | [] => none
  | h :: t => some (t.foldl (fun latest e => if latest.day < e.day then e else latest) h)

/-- Client `removeGoal` (`AppContext.tsx` lines 249-255): find the goal
by id; if it is missing **or** is a default goal, return `false` and
change nothing — the two cases are indistinguishable to the caller —
otherwise filter it out and return `true`.  The pair is
`(returned boolean, goal list afterward)`. -/
def clientRemoveGoal (goals : List Goal) (id : Nat) : Bool × List Goal :=
  match goals.find? (fun g => decide (g.id = id)) with
  | none => (false, goals)
  | some g =>
      if g.isDefault then (false, goals)
      else (true, goals.filter (fun g2 => decide (¬ g2.id = id)))

/-- Client `getTodayWater` (`AppContext.tsx` lines 359-363). -/
def clientGetTodayWater (logs : List CWaterLog) (today : Int) : Nat :=
  match logs.find? (fun l => decide (l.day = today)) with
  | some l => l.amountMl
  | none => 0

/-- Client `isWeeklyGoalMet` (`AppContext.tsx` lines 333-345): `false`
without a water goal, otherwise `every` day of the weekly series is
either in the future or meets the goal. -/
def clientIsWeeklyGoalMet (goals : List Goal) (logs : List CWaterLog) (today : Int) :
    Bool :=
  match goals.find? (fun g => decide (g.type = GoalType.water)) with
  | none => false
  | some g =>
      (clientWeeklyWater logs today).all
        (fun p => decide (today < p.1) || decide (g.value * 1000 ≤ p.2))

/-- The client `AnalyticsSummary` fields needed here
(`AppContext.tsx` lines 36-52 and 410-427). -/
structure ClientAnalyticsOut where
  sleepHoursTenths : List Nat
  sleepAverageHundredths : Nat
  waterLitersTenths : List Nat
  dailyGoalLiters : Nat
  waterGoalMetCount : Nat
  totalGoals : Nat
  completedToday : Nat
  weeklyCompletionRatePercent : Nat
deriving DecidableEq, Repr

/-- Accumulator of the `goals.forEach` loop of the client summary:
`(completedToday, weeklyCompletions, weeklyTotal)`. -/
def clientGoalStep (weeklyWaterS weeklySleepS : List (Int × Nat)) (todayWaterMl : Nat)
    (latestSleep : Option CSleepEntry) (dailyGoalMl sleepGoalMinutes : Nat)
    (today : Int) (acc : Nat × Nat × Nat) (g : Goal) : Nat × Nat × Nat :=
  match g.type with
  | GoalType.water =>
      (acc.1 + (if decide (dailyGoalMl ≤ todayWaterMl) then 1 else 0),
       acc.2.1 + (weeklyWaterS.countP
         (fun p => decide (p.1 ≤ today) && decide (dailyGoalMl ≤ p.2))),
       acc.2.2 + (weeklyWaterS.countP (fun p => decide (p.1 ≤ today))))
  | GoalType.sleep =>
      (acc.1 + (if latestSleep.any (fun e => decide (sleepGoalMinutes ≤ e.durationMinutes))
          then 1 else 0),
       acc.2.1 + (weeklySleepS.countP
         (fun p => decide (p.1 ≤ today) && decide (0 < p.2) &&
            decide (sleepGoalMinutes ≤ p.2))),
       acc.2.2 + (weeklySleepS.countP (fun p => decide (p.1 ≤ today) && decide (0 < p.2))))
  | _ => acc

/-- Client `getAnalyticsSummary` (`AppContext.tsx` lines 365-428).
The `sleepAverage` divides the sum of all display hours by the number of
days with non-zero display hours; when that count is 0 the JavaScript
division yields `NaN` and the final `sleepAverage || 0` coerces it to 0,
modelled by the 0 branch. -/
def clientAnalyticsSummary (goals : List Goal) (sleepEntries : List CSleepEntry)
    (waterLogs : List CWaterLog) (today : Int) : ClientAnalyticsOut :=
  let weeklySleepS := clientWeeklySleep sleepEntries today
  let weeklyWaterS := clientWeeklyWater waterLogs today
  let dailyGoalLiters := waterGoalLiters goals
  let dailyGoalMl := dailyGoalLiters * 1000
  let sleepGoalMinutes := sleepGoalHoursOf goals * 60
  let sleepHours := weeklySleepS.map (fun p => hoursTenths p.2)
  let nzCount := (sleepHours.filter (fun h => decide (0 < h))).length
  let sleepAverageHundredths :=
    if 0 < nzCount then roundDiv (10 * sleepHours.sum) nzCount else 0
  let waterLiters := weeklyWaterS.map (fun p => litersTenths p.2)
  let waterGoalMetCount := weeklyWaterS.countP
    (fun p => decide (p.1 ≤ today) && decide (dailyGoalMl ≤ p.2))
  let res := goals.foldl
    (clientGoalStep weeklyWaterS weeklySleepS (clientGetTodayWater waterLogs today)
      (clientGetLatestSleep sleepEntries) dailyGoalMl sleepGoalMinutes today)
    (0, 0, 0)
  let weeklyCompletionRatePercent :=
    if 0 < res.2.2 then roundDiv (100 * res.2.1) res.2.2 else 0
  { sleepHoursTenths := sleepHours
    sleepAverageHundredths := sleepAverageHundredths
    waterLitersTenths := waterLiters
    dailyGoalLiters := dailyGoalLiters
    waterGoalMetCount := waterGoalMetCount
    totalGoals := goals.length
    completedToday := res.1
    weeklyCompletionRatePercent := weeklyCompletionRatePercent }

/-- Specification-side sleep average, following the spec's words for
claim C5 verbatim: the mean (rounded to two decimals like the code's
final `Math.round(x*100)/100`) of the display-unit sleep-hours values
over exactly the elapsed days whose stored `durationMinutes` is
non-zero, and 0 when no such day exists.  To be compared against the
`sleepAverageHundredths` the handler computes. -/
def sleepAverageSpecHundredths (ss : List SleepEntry) (u : Nat) (days : Nat)
    (today : Int) : Nat :=
  let durAt := fun (i : Nat) =>
    match ss.find? (fun e => decide (e.userId = u ∧ e.day = summaryDay days today i)) with
    | some e => e.durationMinutes
    | none => 0
  let nzDur := (elapsedIdx days today).filter (fun i => decide (0 < durAt i))
  if 0 < nzDur.length
    then roundDiv (10 * (nzDur.map (fun i => hoursTenths (durAt i))).sum) nzDur.length
    else 0

/-- Number of days of a 7-day week starting at `startDay` that are not
in the future relative to `today` — the claims' `eligibleDayCount`. -/
def eligibleCount (startDay today : Int) : Nat :=
  ((List.range 7).filter (fun (i : Nat) => decide (startDay + (i : Int) ≤ today))).length

/-- A seeded default water goal (3 L/day), used in concrete scenarios. -/
def demoWaterGoal : Goal :=
  { id := 1, userId := 0, type := GoalType.water, label := ("Water"), value := 3,
    unit := ("L"), isDefault := true }

/-- A seeded default sleep goal (8 h/night), used in concrete scenarios. -/
def demoSleepGoal : Goal :=
  { id := 2, userId := 0, type := GoalType.sleep, label := ("Sleep"), value := 8,
    unit := ("hours"), isDefault := true }

/-- A server sleep entry of 480 minutes on day 0 for user 0. -/
def demoSleep480 : SleepEntry :=
  { userId := 0, day := 0, durationMinutes := 480, restedPercent := 50,
    remPercent := 50, deepSleepPercent := 50, notes := ("") }

/-- A server sleep entry of 2 minutes on day 1 for user 0: a non-zero
duration whose display value rounds to 0.0 hours. -/
def demoSleep2min : SleepEntry :=
  { userId := 0, day := 1, durationMinutes := 2, restedPercent := 50,
    remPercent := 50, deepSleepPercent := 50, notes := ("") }

/-- A client sleep entry of 480 minutes dated the day before day 0. -/
def demoClientSleepYesterday : CSleepEntry :=
  { day := -1, durationMinutes := 480, restedPercent := 80, remPercent := 20,
    deepSleepPercent := 20 }

theorem updateFirst_filter_singleton {α : Type} (p : α → Bool) (f : α → α)
    (hf : ∀ a, p a = true → p (f a) = true) (l : List α) :
    ∀ r : α, l.filter p = [r] → (updateFirst p f l).filter p = [f r] := by
  induction l with
  | nil => intro r h; simp at h
  | cons x xs ih =>
    intro r h
    by_cases hx : p x = true
    · simp [List.filter_cons, hx] at h
      obtain ⟨rfl, hnil⟩ := h
      simp only [updateFirst, if_pos hx]
      rw [List.filter_cons_of_pos (hf x hx)]
      rw [List.filter_eq_nil_iff.mpr (by intro a ha; simp [hnil a ha])]
    · simp [List.filter_cons, hx] at h
      simp only [updateFirst, if_neg hx]
      rw [List.filter_cons_of_neg (by simpa using hx)]
      exact ih r h

theorem filter_eq_nil_find_none {α : Type} (p : α → Bool) (l : List α)
    (h : l.filter p = []) : l.find? p = none := by
  rw [List.find?_eq_none]
  intro x hx
  exact (List.filter_eq_nil_iff.mp h) x hx

theorem waterUpsert_filter_of_none (store : List WaterLog) (u : Nat) (d : Int)
    (a : Nat) (h : store.filter (waterKeyMatch u d) = []) :
    (waterUpsert store u d a).filter (waterKeyMatch u d) =
      [{ userId := u, day := d, amountMl := a }] := by
  unfold waterUpsert
  rw [filter_eq_nil_find_none _ _ h]
  rw [List.filter_append, h]
  simp [waterKeyMatch]

theorem waterUpsert_filter_of_one (store : List WaterLog) (u : Nat) (d : Int)
    (a S : Nat)
    (h : store.filter (waterKeyMatch u d) = [{ userId := u, day := d, amountMl := S }]) :
    (waterUpsert store u d a).filter (waterKeyMatch u d) =
      [{ userId := u, day := d, amountMl := S + a }] := by
  unfold waterUpsert
  cases hf : store.find? (waterKeyMatch u d) with
  | none =>
    exfalso
    rw [List.find?_eq_none] at hf
    have h2 := List.filter_eq_nil_iff.mpr hf
    rw [h] at h2
    simp at h2
  | some y =>
    exact updateFirst_filter_singleton _ _
      (by intro r hr; simpa [waterKeyMatch] using hr) store _ h

theorem runCreateWaterLog_pos (store : List WaterLog) (u : Nat) (d : Int) (a : Int)
    (ha : 1 ≤ a) : runCreateWaterLog store u d a = waterUpsert store u d a.toNat := by
  unfold runCreateWaterLog createWaterLog
  rw [if_neg (by omega)]

theorem foldWater_filter (u : Nat) (d : Int) (amounts : List Int) :
    ∀ (store : List WaterLog) (S : Nat), (∀ a ∈ amounts, 1 ≤ a) →
    store.filter (waterKeyMatch u d) = [{ userId := u, day := d, amountMl := S }] →
    (amounts.foldl (fun s a => runCreateWaterLog s u d a) store).filter
        (waterKeyMatch u d) =
      [{ userId := u, day := d, amountMl := S + (amounts.map Int.toNat).sum }] := by
  induction amounts with
  | nil => intro store S _ h; simpa using h
  | cons a as ih =>
    intro store S hpos h
    have ha : 1 ≤ a := hpos a (by simp)
    rw [List.foldl_cons]
    rw [runCreateWaterLog_pos store u d a ha]
    have h1 := waterUpsert_filter_of_one store u d a.toNat S h
    have h2 := ih (waterUpsert store u d a.toNat) (S + a.toNat)
      (fun x hx => hpos x (by simp [hx])) h1
    rw [h2]
    simp [Nat.add_assoc]

/-- Claim C2: for every user `u` and calendar day `d`, starting from a
state with no WaterLog for `(u, d)`, after any finite non-empty sequence
of accepted add-water calls for `(u, d)` exactly one WaterLog record
exists for `(u, d)`, its `amountMl` equals the sum of all amounts passed
in those calls, and the range query for `[d, d+1)` returns exactly that
record. -/
theorem claimC2 (store : List WaterLog) (u : Nat) (d : Int) (amounts : List Int)
    (hpos : ∀ a ∈ amounts, 1 ≤ a) (hne : amounts ≠ [])
    (h0 : store.filter (waterKeyMatch u d) = []) :
    ((amounts.foldl (fun s a => runCreateWaterLog s u d a) store).filter
        (waterKeyMatch u d) =
      [{ userId := u, day := d, amountMl := (amounts.map Int.toNat).sum }]) ∧
    (findWaterInRange
        (amounts.foldl (fun s a => runCreateWaterLog s u d a) store) u d (d + 1) =
      [{ userId := u, day := d, amountMl := (amounts.map Int.toNat).sum }]) := by
  obtain ⟨a, as, rfl⟩ : ∃ a as, amounts = a :: as := by
    cases amounts with
    | nil => exact absurd rfl hne
    | cons a as => exact ⟨a, as, rfl⟩
  have ha : 1 ≤ a := hpos a (by simp)
  have step1 : (runCreateWaterLog store u d a).filter (waterKeyMatch u d) =
      [{ userId := u, day := d, amountMl := a.toNat }] := by
    rw [runCreateWaterLog_pos store u d a ha]
    exact waterUpsert_filter_of_none store u d a.toNat h0
  have main := foldWater_filter u d as (runCreateWaterLog store u d a) a.toNat
    (fun x hx => hpos x (by simp [hx])) step1
  rw [List.foldl_cons]
  constructor
  · rw [main]; simp
  · have hrange : findWaterInRange
        (as.foldl (fun s x => runCreateWaterLog s u d x) (runCreateWaterLog store u d a))
        u d (d + 1) =
        (as.foldl (fun s x => runCreateWaterLog s u d x)
          (runCreateWaterLog store u d a)).filter (waterKeyMatch u d) := by
      unfold findWaterInRange
      apply List.filter_congr
      intro r _
      simp only [waterKeyMatch, decide_eq_decide]
      omega
    rw [hrange, main]
    simp

/-- Witness for C2: the spec's round-trip scenario — 250 ml then 500 ml
on the same day leaves one record with `amountMl = 750`, and the range
query `[d, d+1)` returns exactly it. -/
theorem claimC2_witness :
    ((([(250 : Int), 500]).foldl (fun s a => runCreateWaterLog s 0 0 a) []).filter
        (waterKeyMatch 0 0) = [{ userId := 0, day := 0, amountMl := 750 }]) ∧
    (findWaterInRange
        (([(250 : Int), 500]).foldl (fun s a => runCreateWaterLog s 0 0 a) []) 0 0 1 =
      [{ userId := 0, day := 0, amountMl := 750 }]) := by
  simpa using claimC2 [] 0 0 [(250 : Int), 500] (by decide) (by decide) rfl

theorem sleepUpsert_filter_of_none (store : List SleepEntry) (u : Nat) (d : Int)
    (p : SleepPayload) (h : store.filter (sleepKeyMatch u d) = []) :
    (sleepUpsert store u d p).filter (sleepKeyMatch u d) = [mkSleepEntry u d p] := by
  unfold sleepUpsert
  rw [filter_eq_nil_find_none _ _ h]
  rw [List.filter_append, h]
  simp [sleepKeyMatch, mkSleepEntry]

theorem sleepUpsert_filter_of_one (store : List SleepEntry) (u : Nat) (d : Int)
    (p q : SleepPayload) (h : store.filter (sleepKeyMatch u d) = [mkSleepEntry u d q]) :
    (sleepUpsert store u d p).filter (sleepKeyMatch u d) = [mkSleepEntry u d p] := by
  unfold sleepUpsert
  cases hf : store.find? (sleepKeyMatch u d) with
  | none =>
    exfalso
    rw [List.find?_eq_none] at hf
    have h2 := List.filter_eq_nil_iff.mpr hf
    rw [h] at h2
    simp at h2
  | some y =>
    exact updateFirst_filter_singleton _ _
      (by intro r hr; simp [sleepKeyMatch, mkSleepEntry]) store _ h

theorem runCreateSleepEntry_valid (store : List SleepEntry) (u : Nat) (d : Int)
    (p : SleepPayload) (hv : validSleepPayload p) :
    runCreateSleepEntry store u d p = sleepUpsert store u d p := by
  obtain ⟨h1, h2, h3⟩ := hv
  unfold runCreateSleepEntry createSleepEntry
  rw [if_neg (by omega), if_neg (by omega), if_neg (by omega)]

/-- Claim C3: after two successive sleep-log calls for `(u, d)` with
different valid payloads, exactly one SleepEntry exists for `(u, d)` and
all of its fields carry the second call's payload (`notes` normalized to
the empty string when absent, as the handler writes it) — the second
call fully replaces the first. -/
theorem claimC3 (store : List SleepEntry) (u : Nat) (d : Int) (p1 p2 : SleepPayload)
    (hv1 : validSleepPayload p1) (hv2 : validSleepPayload p2) (_hne : p1 ≠ p2)
    (h0 : store.filter (sleepKeyMatch u d) = []) :
    (runCreateSleepEntry (runCreateSleepEntry store u d p1) u d p2).filter
        (sleepKeyMatch u d) = [mkSleepEntry u d p2] := by
  rw [runCreateSleepEntry_valid _ _ _ _ hv1, runCreateSleepEntry_valid _ _ _ _ hv2]
  exact sleepUpsert_filter_of_one _ u d p2 p1 (sleepUpsert_filter_of_none store u d p1 h0)

/-- Witness for C3 at a concrete pair of payloads. -/
theorem claimC3_witness :
    (runCreateSleepEntry
        (runCreateSleepEntry [] 0 0
          { durationMinutes := 480, restedPercent := 80, remPercent := 20,
            deepSleepPercent := 20, notes := some ("good") }) 0 0
        { durationMinutes := 400, restedPercent := 70, remPercent := 25,
          deepSleepPercent := 15, notes := none }).filter (sleepKeyMatch 0 0) =
      [{ userId := 0, day := 0, durationMinutes := 400, restedPercent := 70,
         remPercent := 25, deepSleepPercent := 15, notes := ("") }] := by
  simpa [mkSleepEntry] using claimC3 [] 0 0
    { durationMinutes := 480, restedPercent := 80, remPercent := 20,
      deepSleepPercent := 20, notes := some ("good") }
    { durationMinutes := 400, restedPercent := 70, remPercent := 25,
      deepSleepPercent := 15, notes := none }
    (by constructor <;> simp) (by constructor <;> simp) (by decide) rfl

/-- Claim C8 (amended): deleting any goal whose is-default flag is true
fails and the goal remains in the store, in both cited implementations;
the **server** delete route fails with the specific business-rule error
"Cannot delete default goals" (not a generic NotFound), while the
client-side `removeGoal` signals the failure only by returning the bare
boolean `false` — the identical result as a nonexistent goal id — and
likewise leaves the goal list unchanged with the goal still present.
(The claim as stated required the specific error from every cited
implementation — see the counterexample for the client.) -/
theorem claimC8 (goals : List Goal) (id u : Nat) (g : Goal)
    (hfind : goals.find? (fun g0 => decide (g0.id = id ∧ g0.userId = u)) = some g)
    (hdef : g.isDefault = true)
    (cgoals : List Goal) (cid : Nat) (cg : Goal)
    (hcfind : cgoals.find? (fun g0 => decide (g0.id = cid)) = some cg)
    (hcdef : cg.isDefault = true) :
    deleteGoal goals id u = .error (.businessRule ("Cannot delete default goals")) ∧
    runDeleteGoal goals id u = goals ∧
    g ∈ runDeleteGoal goals id u ∧
    clientRemoveGoal cgoals cid = (false, cgoals) ∧
    cg ∈ (clientRemoveGoal cgoals cid).2 := by
  have herr : deleteGoal goals id u =
      .error (.businessRule ("Cannot delete default goals")) := by
    unfold deleteGoal
    rw [hfind]
    simp [hdef]
  have hclient : clientRemoveGoal cgoals cid = (false, cgoals) := by
    unfold clientRemoveGoal
    rw [hcfind]
    simp [hcdef]
  refine ⟨herr, ?_, ?_, hclient, ?_⟩
  · unfold runDeleteGoal
    rw [herr]
  · unfold runDeleteGoal
    rw [herr]
    exact List.mem_of_find?_eq_some hfind
  · rw [hclient]
    exact List.mem_of_find?_eq_some hcfind

/-- Witness for C8: deleting a seeded default water goal through the
server route and through the client `removeGoal`. -/
theorem claimC8_witness :
    deleteGoal [demoWaterGoal] 1 0 =
      .error (.businessRule ("Cannot delete default goals")) ∧
    runDeleteGoal [demoWaterGoal] 1 0 = [demoWaterGoal] ∧
    demoWaterGoal ∈ runDeleteGoal [demoWaterGoal] 1 0 ∧
    clientRemoveGoal [demoWaterGoal] 1 = (false, [demoWaterGoal]) ∧
    demoWaterGoal ∈ (clientRemoveGoal [demoWaterGoal] 1).2 :=
  claimC8 [demoWaterGoal] 1 0 demoWaterGoal (by decide) (by decide)
    [demoWaterGoal] 1 demoWaterGoal (by decide) (by decide)

/-- Counterexample refuting claim C8 as stated: the client `removeGoal`
(also cited by the claim) produces for a default goal exactly the same
bare `false` it produces for a goal id that does not exist at all — no
distinct business-rule error of any kind is surfaced, only the
unchanged-store part of the claim holds there.  Goal id 1 is the stored
default water goal; id 99 matches nothing. -/
theorem claimC8_counterexample :
    clientRemoveGoal [demoWaterGoal] 1 = (false, [demoWaterGoal]) ∧
    clientRemoveGoal [demoWaterGoal] 99 = (false, [demoWaterGoal]) ∧
    (clientRemoveGoal [demoWaterGoal] 1).1 = (clientRemoveGoal [demoWaterGoal] 99).1 ∧
    demoWaterGoal.isDefault = true ∧
    ([demoWaterGoal].filter (fun g => decide (g.id = 99))).length = 0 :=
  ⟨by decide, by decide, by decide, by decide, by decide⟩

/-- Claim C9: every add-water request whose `amountMl` is at most 0 —
including exactly 0, which the schema's `min: 0` bound would admit — is
rejected with the field-level validation message, and the store is
unchanged. -/
theorem claimC9 (store : List WaterLog) (u : Nat) (d : Int) (amountMl : Int)
    (h : amountMl ≤ 0) :
    createWaterLog store u d amountMl = .error ("Amount must be a positive number") ∧
    runCreateWaterLog store u d amountMl = store ∧
    waterLogSchemaMinAmount ≤ 0 := by
  have herr : createWaterLog store u d amountMl =
      .error ("Amount must be a positive number") := by
    unfold createWaterLog
    rw [if_pos (by omega)]
  refine ⟨herr, ?_, by decide⟩
  unfold runCreateWaterLog
  rw [herr]

/-- Witness for C9 at the boundary amount 0 on a non-empty store. -/
theorem claimC9_witness :
    createWaterLog [{ userId := 0, day := 0, amountMl := 100 }] 0 0 0 =
      .error ("Amount must be a positive number") ∧
    runCreateWaterLog [{ userId := 0, day := 0, amountMl := 100 }] 0 0 0 =
      [{ userId := 0, day := 0, amountMl := 100 }] ∧
    waterLogSchemaMinAmount ≤ 0 :=
  claimC9 [{ userId := 0, day := 0, amountMl := 100 }] 0 0 0 (by decide)

/-- Claim C10: a day's water goal-met flag compares the liter value
rounded to one decimal against the goal, so exactly the raw amounts
within 50 ml under `goalLiters × 1000` (and everything above) count as
met; in particular 2950 ml meets a 3 L goal although 2950 < 3000, and
the analytics summary counts such a day as goal-met. -/
theorem claimC10 :
    (∀ amountMl goalLiters : Nat,
      waterDayMet amountMl goalLiters = true ↔ 1000 * goalLiters ≤ amountMl + 50) ∧
    waterDayMet 2950 3 = true ∧ 2950 < 3000 ∧
    (analyticsSummary [] [{ userId := 0, day := 0, amountMl := 2950 }]
      [demoWaterGoal] 0 1 0).waterGoalMetCount = 1 := by
  refine ⟨?_, by decide, by decide, by decide⟩
  intro amountMl goalLiters
  unfold waterDayMet litersTenths roundDiv
  rw [decide_eq_true_eq]
  have h1 : (2 * (10 * amountMl) + 1000) / (2 * 1000) = (amountMl + 50) / 100 := by
    have h2 : 2 * (10 * amountMl) + 1000 = 20 * (amountMl + 50) := by ring
    rw [h2, show 2 * 1000 = 20 * 100 from rfl]
    exact Nat.mul_div_mul_left _ _ (by norm_num)
  rw [h1]
  rw [Nat.le_div_iff_mul_le (by norm_num)]
  omega

theorem sleepCellFor_day (entries : List SleepEntry) (day : Int) :
    (sleepCellFor entries day).day = day := by
  unfold sleepCellFor
  cases h : entries.find? (fun e => decide (e.day = day)) <;> rfl

theorem sleepCellFor_dur_of_none (entries : List SleepEntry) (day : Int)
    (h : entries.find? (fun e => decide (e.day = day)) = none) :
    (sleepCellFor entries day).durationMinutes = 0 := by
  unfold sleepCellFor
  rw [h]

theorem waterCellFor_day (logs : List WaterLog) (g : Nat) (today day : Int) :
    (waterCellFor logs g today day).day = day := rfl

theorem waterCellFor_amount_of_none (logs : List WaterLog) (g : Nat) (today day : Int)
    (h : logs.find? (fun r => decide (r.day = day)) = none) :
    (waterCellFor logs g today day).amountMl = 0 := by
  unfold waterCellFor
  rw [h]

theorem find?_filter_none_of_store {α : Type} (p q : α → Bool) (l : List α)
    (h : ∀ x ∈ l, ¬ (p x = true ∧ q x = true)) :
    (l.filter p).find? q = none := by
  rw [List.find?_eq_none]
  intro x hx
  rw [List.mem_filter] at hx
  intro hq
  exact h x hx.1 ⟨hx.2, hq⟩

/-- Claim C4: both weekly series contain exactly 7 entries, ordered with
index 0 the week-start day, and every day without a stored record
appears with value 0. -/
theorem claimC4 (ss : List SleepEntry) (ws : List WaterLog) (gs : List Goal)
    (u : Nat) (startDay today : Int) :
    ((sleepWeekEntries ss u startDay).length = 7) ∧
    ((sleepWeekEntries ss u startDay).map (fun c => c.day) =
      (List.range 7).map (fun (i : Nat) => startDay + (i : Int))) ∧
    (∀ c ∈ sleepWeekEntries ss u startDay,
      ss.find? (fun e => decide (e.userId = u ∧ e.day = c.day)) = none →
      c.durationMinutes = 0) ∧
    ((waterWeekResp ws gs u startDay today).entries.length = 7) ∧
    ((waterWeekResp ws gs u startDay today).entries.map (fun c => c.day) =
      (List.range 7).map (fun (i : Nat) => startDay + (i : Int))) ∧
    (∀ c ∈ (waterWeekResp ws gs u startDay today).entries,
      ws.find? (fun r => decide (r.userId = u ∧ r.day = c.day)) = none →
      c.amountMl = 0) := by
  refine ⟨?_, ?_, ?_, ?_, ?_, ?_⟩
  · simp only [sleepWeekEntries, List.length_map, List.length_range]
  · simp only [sleepWeekEntries, List.map_map]
    apply List.map_congr_left
    intro i _
    exact sleepCellFor_day _ _
  · intro c hc
    simp only [sleepWeekEntries] at hc
    obtain ⟨i, _, rfl⟩ := List.mem_map.mp hc
    rw [sleepCellFor_day]
    intro hnone
    apply sleepCellFor_dur_of_none
    apply find?_filter_none_of_store
    intro e he hcontra
    rw [List.find?_eq_none] at hnone
    apply hnone e he
    simp only [decide_eq_true_eq] at hcontra ⊢
    exact ⟨hcontra.1.1, hcontra.2⟩
  · simp only [waterWeekResp, List.length_map, List.length_range]
  · simp only [waterWeekResp, List.map_map]
    apply List.map_congr_left
    intro i _
    rfl
  · intro c hc
    simp only [waterWeekResp] at hc
    obtain ⟨i, _, rfl⟩ := List.mem_map.mp hc
    rw [waterCellFor_day]
    intro hnone
    apply waterCellFor_amount_of_none
    apply find?_filter_none_of_store
    intro r hr hcontra
    rw [List.find?_eq_none] at hnone
    apply hnone r hr
    simp only [decide_eq_true_eq] at hcontra ⊢
    exact ⟨hcontra.1.1, hcontra.2⟩

/-- Witness for C4: one stored sleep entry on day 0; the day-1 cell of
the series is present with value 0, and both series have length 7. -/
theorem claimC4_witness :
    (sleepWeekEntries [demoSleep480] 0 0).length = 7 ∧
    ({ day := 1, durationMinutes := 0, entry := none } : SleepWeekCell).durationMinutes = 0 ∧
    (waterWeekResp [] [] 0 0 0).entries.length = 7 :=
  ⟨(claimC4 [demoSleep480] [] [] 0 0 0).1,
   (claimC4 [demoSleep480] [] [] 0 0 0).2.2.1
     { day := 1, durationMinutes := 0, entry := none } (by decide) (by decide),
   (claimC4 [demoSleep480] [] [] 0 0 0).2.2.2.1⟩

theorem weekdayIdx_lt_7 (d : Int) : weekdayIdx d < 7 := by
  unfold weekdayIdx
  have h1 : 0 ≤ d % 7 := Int.emod_nonneg d (by norm_num)
  have h2 : d % 7 < 7 := Int.emod_lt_of_pos d (by norm_num)
  omega

theorem count_range7_le (w : Nat) (hw : w < 7) :
    ((List.range 7).filter (fun i => decide (i ≤ w))).length = w + 1 := by
  interval_cases w <;> decide

theorem eligibleCount_week (today : Int) :
    eligibleCount (today - (weekdayIdx today : Int)) today = weekdayIdx today + 1 := by
  unfold eligibleCount
  rw [List.filter_congr (fun i _ => ?_)]
  · exact count_range7_le (weekdayIdx today) (weekdayIdx_lt_7 today)
  · show decide (today - (weekdayIdx today : Int) + (i : Int) ≤ today) =
      decide (i ≤ weekdayIdx today)
    rw [decide_eq_decide]
    omega

theorem filter_and_length_le {α : Type} (l : List α) (g f : α → Bool) :
    (l.filter (fun x => g x && f x)).length ≤ (l.filter g).length := by
  induction l with
  | nil => simp
  | cons x xs ih =>
    by_cases hg : g x = true
    · by_cases hf : f x = true
      · rw [List.filter_cons_of_pos (by simp [hg, hf]), List.filter_cons_of_pos hg]
        simpa using ih
      · rw [List.filter_cons_of_neg (by simp [hf]), List.filter_cons_of_pos hg]
        simp
        omega
    · rw [List.filter_cons_of_neg (by simp [hg]), List.filter_cons_of_neg (by simp [hg])]
      exact ih

theorem all_iff_filter_len {α : Type} (l : List α) (g f : α → Bool) :
    (l.all (fun x => !g x || f x) = true) ↔
      (l.filter (fun x => g x && f x)).length = (l.filter g).length := by
  induction l with
  | nil => simp
  | cons x xs ih =>
    rw [List.all_cons]
    by_cases hg : g x = true
    · by_cases hf : f x = true
      · rw [List.filter_cons_of_pos (by simp [hg, hf]), List.filter_cons_of_pos hg]
        simp only [hg, hf, Bool.not_true, Bool.false_or, Bool.true_and, List.length_cons]
        rw [ih]
        omega
      · rw [List.filter_cons_of_neg (by simp [hf]), List.filter_cons_of_pos hg]
        simp only [hg, hf, Bool.not_true, Bool.false_or, Bool.false_and, Bool.and_false,
          List.length_cons]
        constructor
        · intro h; simp at h
        · intro h
          exfalso
          have := filter_and_length_le xs g f
          omega
    · rw [List.filter_cons_of_neg (by simp [hg]), List.filter_cons_of_neg (by simp [hg])]
      simp only [hg, Bool.not_false, Bool.true_or, Bool.true_and]
      exact ih

/-- Claim C1 (amended): for every request to the server analytics-summary
endpoint, the returned `weeklyCompletionRatePercent` equals
`round(100 × (waterGoalMetCount + sleepGoalMetCount) / (2 × elapsedDayCount))`
where `elapsedDayCount` is the number of days of the requested range
that are ≤ today, and it equals 0 whenever `elapsedDayCount` is 0.  (The
claim as stated also covered the client-side `getAnalyticsSummary`,
which computes a different denominator — see the counterexample.) -/
theorem claimC1_amended (ss : List SleepEntry) (ws : List WaterLog) (gs : List Goal)
    (u : Nat) (days : Nat) (today : Int) :
    (analyticsSummary ss ws gs u days today).weeklyCompletionRatePercent =
      if eligibleRangeCount days today = 0 then 0
      else roundDiv
        (100 * ((analyticsSummary ss ws gs u days today).waterGoalMetCount +
          (analyticsSummary ss ws gs u days today).sleepGoalMetCount))
        (2 * eligibleRangeCount days today) := by
  simp only [analyticsSummary, eligibleRangeCount]
  rw [List.length_map]
  by_cases hE : (elapsedIdx days today).length = 0
  · simp [hE]
  · rw [if_pos (by omega), if_neg hE, Nat.mul_comm ((elapsedIdx days today).length) 2]

/-- Counterexample refuting claim C1 on the client implementation: one
elapsed day (a Sunday), water goal met today (3000 ml ≥ 3 L), no sleep
logged.  The claimed formula gives `round(100 × (1 + 0) / (2 × 1)) = 50`
but the client's `goals.weeklyCompletionRatePercent` is 100, because its
denominator counts only elapsed sleep days with non-zero duration. -/
theorem claimC1_counterexample :
    (clientAnalyticsSummary [demoWaterGoal, demoSleepGoal] []
      [{ day := 0, amountMl := 3000 }] 0).weeklyCompletionRatePercent = 100 ∧
    (clientAnalyticsSummary [demoWaterGoal, demoSleepGoal] []
      [{ day := 0, amountMl := 3000 }] 0).waterGoalMetCount = 1 ∧
    ((clientWeeklySleep [] 0).filter
      (fun p => decide (p.1 ≤ 0) && decide (8 * 60 ≤ p.2))).length = 0 ∧
    roundDiv (100 * (1 + 0)) (2 * 1) = 50 ∧
    (100 : Nat) ≠ 50 :=
  ⟨by decide, by decide, by decide, by decide, by decide⟩

/-- Claim C5 (amended): the analytics sleep average is the mean, rounded
to two decimals, of the display-unit sleep-hours values over exactly the
days whose rounded display value is non-zero (so a day with 1-2 minutes
of sleep, displaying as 0.0 h, is excluded even though its duration is
non-zero), and it is 0 when no such day exists — never a
division-by-zero artifact. -/
theorem claimC5_amended (ss : List SleepEntry) (ws : List WaterLog) (gs : List Goal)
    (u : Nat) (days : Nat) (today : Int) :
    (analyticsSummary ss ws gs u days today).sleepAverageHundredths =
      if ((analyticsSummary ss ws gs u days today).sleepHoursTenths.filter
          (fun h => decide (0 < h))).length = 0 then 0
      else roundDiv
        (10 * ((analyticsSummary ss ws gs u days today).sleepHoursTenths.filter
          (fun h => decide (0 < h))).sum)
        (((analyticsSummary ss ws gs u days today).sleepHoursTenths.filter
          (fun h => decide (0 < h))).length) := by
  simp only [analyticsSummary]
  rw [List.filter_map]
  have hcomp : ((fun h => decide (0 < h)) ∘ summarySleepTenthsAt ss u days today) =
      (fun i => decide (0 < summarySleepTenthsAt ss u days today i)) := rfl
  rw [hcomp, List.length_map]
  by_cases hE : ((elapsedIdx days today).filter
      (fun i => decide (0 < summarySleepTenthsAt ss u days today i))).length = 0
  · rw [if_pos hE, if_neg (by omega)]
  · rw [if_pos (by omega), if_neg hE]

/-- Counterexample refuting claim C5 as stated: a 480-minute day and a
2-minute day.  Both days have non-zero duration, so the claimed average
over non-zero-duration days is (8.0 + 0.0)/2 = 4.00 h, but the handler
excludes the 2-minute day (display 0.0 h) and returns 8.00 h. -/
theorem claimC5_counterexample :
    (analyticsSummary [demoSleep480, demoSleep2min] [] [] 0 2 1).sleepAverageHundredths
        = 800 ∧
    sleepAverageSpecHundredths [demoSleep480, demoSleep2min] 0 2 1 = 400 ∧
    demoSleep2min.durationMinutes ≠ 0 ∧
    (800 : Nat) ≠ 400 :=
  ⟨by decide, by decide, by decide, by decide⟩

/-- Claim C6: for each of the water weekly endpoint, the dashboard
summary and the client evaluator (given a water goal), the whole-week
goal-met boolean is true exactly when `metCount` equals the eligible
(non-future) day count and that count is positive; a week with zero
eligible days is never reported as met. -/
theorem claimC6 (ws : List WaterLog) (gs : List Goal) (u : Nat) (startDay today : Int)
    (dws : List WaterLog) (dgs : List Goal) (du : Nat) (dtoday : Int)
    (cgs : List Goal) (clogs : List CWaterLog) (ctoday : Int) (g : Goal)
    (hg : cgs.find? (fun g0 => decide (g0.type = GoalType.water)) = some g) :
    ((waterWeekResp ws gs u startDay today).weeklyGoalMet = true ↔
      ((waterWeekResp ws gs u startDay today).goalMetCount = eligibleCount startDay today ∧
        0 < eligibleCount startDay today)) ∧
    ((dashboardWater dws dgs du dtoday).weeklyGoalMet = true ↔
      ((dashboardWater dws dgs du dtoday).weeklyGoalMetCount =
          eligibleCount (dtoday - (weekdayIdx dtoday : Int)) dtoday ∧
        0 < eligibleCount (dtoday - (weekdayIdx dtoday : Int)) dtoday)) ∧
    (clientIsWeeklyGoalMet cgs clogs ctoday = true ↔
      (((clientWeeklyWater clogs ctoday).filter
          (fun p => decide (p.1 ≤ ctoday) && decide (g.value * 1000 ≤ p.2))).length =
        ((clientWeeklyWater clogs ctoday).filter (fun p => decide (p.1 ≤ ctoday))).length ∧
        0 < ((clientWeeklyWater clogs ctoday).filter
          (fun p => decide (p.1 ≤ ctoday))).length)) := by
  refine ⟨?_, ?_, ?_⟩
  · have hpast : ((List.range 7).map
        (fun (i : Nat) => waterCellFor
          (ws.filter (fun r => decide (r.userId = u ∧ startDay ≤ r.day ∧ r.day < startDay + 7)))
          (waterGoalLiters gs * 1000) today (startDay + (i : Int)))).filter
        (fun c => decide (c.day ≤ today)) =
        ((List.range 7).filter (fun (i : Nat) => decide (startDay + (i : Int) ≤ today))).map
          (fun (i : Nat) => waterCellFor
            (ws.filter (fun r => decide (r.userId = u ∧ startDay ≤ r.day ∧ r.day < startDay + 7)))
            (waterGoalLiters gs * 1000) today (startDay + (i : Int))) := by
      rw [List.filter_map]
      rfl
    simp only [waterWeekResp]
    rw [hpast, List.length_map]
    show (decide _ && decide _) = true ↔ _
    rw [Bool.and_eq_true, decide_eq_true_eq, decide_eq_true_eq]
    exact Iff.rfl
  · simp only [dashboardWater]
    have hmin : min 7 (weekdayIdx dtoday + 1) =
        eligibleCount (dtoday - (weekdayIdx dtoday : Int)) dtoday := by
      rw [eligibleCount_week]
      have := weekdayIdx_lt_7 dtoday
      omega
    rw [hmin]
    rw [Bool.and_eq_true, decide_eq_true_eq, decide_eq_true_eq]
  · unfold clientIsWeeklyGoalMet
    rw [hg]
    show ((clientWeeklyWater clogs ctoday).all
      (fun p => decide (ctoday < p.1) || decide (g.value * 1000 ≤ p.2))) = true ↔ _
    have hnot : ∀ x : Int, decide (ctoday < x) = !decide (x ≤ ctoday) := by
      intro x
      by_cases h : ctoday < x
      · rw [decide_eq_true h, decide_eq_false (by omega : ¬ x ≤ ctoday)]
        rfl
      · rw [decide_eq_false h, decide_eq_true (by omega : x ≤ ctoday)]
        rfl
    have hfun : (fun p : Int × Nat => decide (ctoday < p.1) || decide (g.value * 1000 ≤ p.2)) =
        (fun p : Int × Nat => !decide (p.1 ≤ ctoday) || decide (g.value * 1000 ≤ p.2)) :=
      funext (fun p => by rw [hnot p.1])
    rw [hfun]
    have hall := all_iff_filter_len (clientWeeklyWater clogs ctoday)
      (fun p : Int × Nat => decide (p.1 ≤ ctoday))
      (fun p : Int × Nat => decide (g.value * 1000 ≤ p.2))
    have hE : ((clientWeeklyWater clogs ctoday).filter
        (fun p => decide (p.1 ≤ ctoday))).length = weekdayIdx ctoday + 1 := by
      unfold clientWeeklyWater
      rw [List.filter_map, List.length_map]
      exact eligibleCount_week ctoday
    constructor
    · intro h
      exact ⟨hall.mp h, by rw [hE]; omega⟩
    · intro h
      exact hall.mpr h.1

/-- Witness for C6 at concrete inputs. -/
theorem claimC6_witness :
    ((waterWeekResp [] [] 0 0 3).weeklyGoalMet = true ↔
      ((waterWeekResp [] [] 0 0 3).goalMetCount = eligibleCount 0 3 ∧
        0 < eligibleCount 0 3)) ∧
    ((dashboardWater [] [] 0 0).weeklyGoalMet = true ↔
      ((dashboardWater [] [] 0 0).weeklyGoalMetCount =
          eligibleCount (0 - (weekdayIdx 0 : Int)) 0 ∧
        0 < eligibleCount (0 - (weekdayIdx 0 : Int)) 0)) ∧
    (clientIsWeeklyGoalMet [demoWaterGoal] [] 0 = true ↔
      (((clientWeeklyWater [] 0).filter
          (fun p => decide (p.1 ≤ 0) && decide (demoWaterGoal.value * 1000 ≤ p.2))).length =
        ((clientWeeklyWater [] 0).filter (fun p => decide (p.1 ≤ 0))).length ∧
        0 < ((clientWeeklyWater [] 0).filter (fun p => decide (p.1 ≤ 0))).length)) :=
  claimC6 [] [] 0 0 3 [] [] 0 0 [demoWaterGoal] [] 0 demoWaterGoal (by decide)

/-- Claim C7 (amended): in the server analytics summary, `completedToday`
is a same-day-only check — it equals the water indicator plus the sleep
indicator computed from today's records alone, and prepending a water or
sleep record of any other calendar day leaves it unchanged.  (The claim
as stated also covered the client-side summary, whose sleep check uses
the most recent entry from any day — see the counterexample.) -/
theorem claimC7_amended (ss : List SleepEntry) (ws : List WaterLog) (gs : List Goal)
    (u : Nat) (days : Nat) (today : Int) (rw0 : WaterLog) (rs : SleepEntry)
    (hw : rw0.day ≠ today) (hs : rs.day ≠ today) :
    ((analyticsSummary ss (rw0 :: ws) gs u days today).completedToday =
      (analyticsSummary ss ws gs u days today).completedToday) ∧
    ((analyticsSummary (rs :: ss) ws gs u days today).completedToday =
      (analyticsSummary ss ws gs u days today).completedToday) ∧
    ((analyticsSummary ss ws gs u days today).completedToday =
      (if (ws.find? (fun r => decide (r.userId = u ∧ r.day = today))).any
          (fun r => decide (waterGoalLiters gs * 1000 ≤ r.amountMl)) then 1 else 0) +
      (if (ss.find? (fun e => decide (e.userId = u ∧ e.day = today))).any
          (fun e => decide (sleepGoalHoursOf gs * 60 ≤ e.durationMinutes))
        then 1 else 0)) := by
  refine ⟨?_, ?_, ?_⟩
  · simp only [analyticsSummary]
    rw [List.find?_cons_of_neg _ (by simp [hw])]
  · simp only [analyticsSummary]
    rw [List.find?_cons_of_neg _ (by simp [hs])]
  · simp only [analyticsSummary]

/-- Witness for C7 amended. -/
theorem claimC7_witness :
    ((analyticsSummary [] ({ userId := 0, day := 1, amountMl := 5000 } :: []) [] 0 7 0).completedToday =
      (analyticsSummary [] [] [] 0 7 0).completedToday) ∧
    ((analyticsSummary (demoSleep2min :: []) [] [] 0 7 0).completedToday =
      (analyticsSummary [] [] [] 0 7 0).completedToday) ∧
    ((analyticsSummary [] [] [] 0 7 0).completedToday =
      (if (([] : List WaterLog).find? (fun r => decide (r.userId = 0 ∧ r.day = 0))).any
          (fun r => decide (waterGoalLiters [] * 1000 ≤ r.amountMl)) then 1 else 0) +
      (if (([] : List SleepEntry).find? (fun e => decide (e.userId = 0 ∧ e.day = 0))).any
          (fun e => decide (sleepGoalHoursOf [] * 60 ≤ e.durationMinutes))
        then 1 else 0)) :=
  claimC7_amended [] [] [] 0 7 0 { userId := 0, day := 1, amountMl := 5000 }
    demoSleep2min (by decide) (by decide)

/-- Counterexample refuting claim C7 as stated: in the client summary a
480-minute sleep entry dated yesterday, with no record at all for today,
still increments `completedToday` to 1 (the sleep check consults the
most recent entry from any day), while a same-day-only check would give 0. -/
theorem claimC7_counterexample :
    (clientAnalyticsSummary [demoWaterGoal, demoSleepGoal]
      [demoClientSleepYesterday] [] 0).completedToday = 1 ∧
    ([demoClientSleepYesterday].filter (fun e => decide (e.day = 0))).length = 0 ∧
    clientGetTodayWater [] 0 = 0 ∧
    (1 : Nat) ≠ 0 :=
  ⟨by decide, by decide, by decide, by decide⟩
